import Mathlib

/-!
Verification of the APK-generator service in src/index.js.

The program is a single Express request handler with two endpoints:
POST /generate-app (template copy, placeholder substitution, asset
injection, gradle build, staged-upload cleanup) and
GET /download/:buildId (one-shot artifact download with cleanup).

Shallow embedding conventions:
* JS strings are `List Char`; `String.prototype.replace` with a string
  pattern (literal match, first occurrence only, with the ECMA-262
  GetSubstitution dollar-escape expansion applied to the replacement
  value) is `jsReplace`.
* The filesystem is an association list from absolute paths (lists of
  path segments, `List String`, with `[]` the root) to file contents.
  Later entries are shadowed by earlier ones; directories are implicit
  (a directory exists when some file lies under it).
* `path.join` semantics (".." popping the previous segment, "." skipped)
  are `pathNorm`; the service root `__dirname` is modelled as the
  absolute directory /srv/app/src, so the temp root
  `path.join(__dirname, \x27../temp\x27)` is the segment list
  ["srv", "app", "temp"].
* The external gradle invocation is a black box: the exec callback is
  modelled as a function of the reported error flag and of the
  filesystem state the build left behind.  A handler that throws
  (an unhandled rejection, so no HTTP response is ever produced)
  is modelled by an `Option Resp` response component of `none`.
-/

namespace ApkGen

/-- ECMA-262 GetSubstitution for a string (non-regex) search pattern:
the replacement value is scanned for dollar escapes.  Two dollars give
one dollar; dollar-ampersand gives the matched pattern; dollar followed
by the backquote character (code 96) gives the part of the subject
before the match; dollar followed by the single-quote character
(code 39) gives the part after it.  Every other dollar sequence stays
literal: digit references have no captures to refer to for a string
pattern, and the named-reference form has no named captures. -/
def getSubstitution (matched before after : List Char) : List Char → List Char
  | [] => []
  | [c] => [c]
  | c :: d :: t =>
    if c = '$' then
      if d = '$' then '$' :: getSubstitution matched before after t
      else if d = '&' then matched ++ getSubstitution matched before after t
      else if d = Char.ofNat 96 then before ++ getSubstitution matched before after t
      else if d = Char.ofNat 39 then after ++ getSubstitution matched before after t
      else c :: d :: getSubstitution matched before after t
    else c :: getSubstitution matched before after (d :: t)

/-- String.prototype.indexOf for the search pattern: the position of the
first occurrence of `pat` in `s`, if any. -/
def findMatchIdx : List Char → List Char → Option Nat
  | [], pat => cond (pat.isPrefixOf []) (some 0) none
  | c :: t, pat =>
    cond (pat.isPrefixOf (c :: t)) (some 0)
      ((findMatchIdx t pat).map (fun i => i + 1))

/-- JS String.prototype.replace with a string (non-regex) pattern:
splices the GetSubstitution expansion of `rep` in place of the first
occurrence of `pat` in `s`; when `pat` does not occur, `s` is returned
unchanged. -/
def jsReplace (s pat rep : List Char) : List Char :=
  match findMatchIdx s pat with
  | none => s
  | some i =>
    s.take i ++ (getSubstitution pat (s.take i) (s.drop (i + pat.length)) rep
      ++ s.drop (i + pat.length))

/-- The pattern `pat` occurs somewhere inside `s`. -/
def occursIn (pat s : List Char) : Prop := ∃ u v, s = u ++ (pat ++ v)

/-- Placeholder token for the package name, as written in the template. -/
def pkgToken : List Char := "\x7b\x7bPACKAGE_NAME\x7d\x7d".toList

/-- Placeholder token for the application name. -/
def appNameToken : List Char := "\x7b\x7bAPP_NAME\x7d\x7d".toList

/-- Placeholder token for the version. -/
def versionToken : List Char := "\x7b\x7bVERSION\x7d\x7d".toList

/-- Placeholder token for the WebView URL. -/
def urlToken : List Char := "\x7b\x7bURL\x7d\x7d".toList

/-- Substitution performed on AndroidManifest.xml (src/index.js lines
56-59): replace PACKAGE_NAME, then APP_NAME, then VERSION. -/
def substituteManifest (manifest pkg app ver : List Char) : List Char :=
  jsReplace (jsReplace (jsReplace manifest pkgToken pkg) appNameToken app) versionToken ver

/-- Substitution performed on app/build.gradle (lines 65-67). -/
def substituteGradle (gradle pkg ver : List Char) : List Char :=
  jsReplace (jsReplace gradle pkgToken pkg) versionToken ver

/-- Substitution performed on MainActivity.java (line 92). -/
def substituteMainActivity (src url : List Char) : List Char :=
  jsReplace src urlToken url

/-- An absolute filesystem path: segments from the root. -/
def FsPath : Type := List String

instance : Append FsPath := inferInstanceAs (Append (List String))

instance : DecidableEq FsPath := inferInstanceAs (DecidableEq (List String))

/-- The filesystem: an association list from absolute paths to file
contents.  Earlier entries shadow later ones; directories are implicit. -/
def FS : Type := List (List String × List Char)

/-- Content of the file at `p`, if present. -/
def readFile : FS → List String → Option (List Char)
  | [], _ => none
  | (q, c) :: rest, p => if q = p then some c else readFile rest p

/-- Create or overwrite the file at `p` (fs-extra writeFile / copy of a
single file). -/
def writeFile (fs : FS) (p : List String) (c : List Char) : FS := (p, c) :: fs

/-- Recursively delete the directory (or file) at `d` (fs-extra remove):
every file whose path starts with `d` disappears. -/
def removeDir (fs : FS) (d : List String) : FS :=
  fs.filter (fun e => !(d.isPrefixOf e.1))

/-- A directory (or file) exists at `d` when some file lies at or under
it. -/
def dirExists (fs : FS) (d : List String) : Bool :=
  fs.any (fun e => d.isPrefixOf e.1)

/-- The file at `p` exists (fs.existsSync on a file path). -/
def existsFile (fs : FS) (p : List String) : Bool := (readFile fs p).isSome

/-- One step of path.join normalization: "." is skipped and ".."
removes the previously accepted segment (paths here are absolute, so
".." at the root stays at the root). -/
def normStep (acc : List String) (s : String) : List String :=
  if s = "." then acc else if s = ".." then acc.dropLast else acc ++ [s]

/-- path.join normalization of an absolute segment list. -/
def pathNorm (p : List String) : List String := List.foldl normStep [] p

/-- The temp root path.join(dirname, ../temp), with dirname the absolute
directory /srv/app/src of index.js: the absolute directory
/srv/app/temp. -/
def tempRoot : List String := ["srv", "app", "temp"]

/-- Relative path of AndroidManifest.xml inside a workspace (line 54). -/
def manifestRel : List String := ["app", "src", "main", "AndroidManifest.xml"]

/-- Relative path of build.gradle inside a workspace (line 63). -/
def gradleRel : List String := ["app", "build.gradle"]

/-- Relative path of MainActivity.java inside a workspace (line 90). -/
def mainActivityRel : List String :=
  ["app", "src", "main", "java", "com", "example", "webview", "MainActivity.java"]

/-- Relative path of the launcher icon inside a workspace (line 73). -/
def iconRel : List String :=
  ["app", "src", "main", "res", "mipmap-xxxhdpi", "ic_launcher.png"]

/-- Relative path of the web-content target directory (line 80). -/
def webRel : List String := ["app", "src", "main", "assets", "web"]

/-- Relative path of the build artifact inside a workspace
(lines 103 and 130). -/
def apkRel : List String :=
  ["app", "build", "outputs", "apk", "debug", "app-debug.apk"]

/-- Workspace (build) directory for a generated buildId (line 47). -/
def buildDirOf (bid : String) : List String := tempRoot ++ [bid]

/-- Artifact path checked by the exec callback (line 103); the buildId
there is a freshly generated uuid, a single plain segment. -/
def apkPathOf (bid : String) : List String := buildDirOf bid ++ apkRel

/-- Artifact path computed by the download route (line 130).  The
buildId request parameter is an arbitrary string; it is modelled by its
list of slash-separated segments, and path.join normalizes "." and ".."
segments.  A normal generated uuid is a one-element list. -/
def resolvedApkPath (bid : List String) : List String :=
  pathNorm (tempRoot ++ bid ++ apkRel)

/-- HTTP responses produced by the two handlers. -/
inductive Resp where
  | okJson (downloadUrl : String)
  | badRequest (msg : String)
  | serverError (msg : String)
  | fileDownload (content : List Char) (filename : String)
  | notFoundJson (msg : String)
deriving DecidableEq

/-- GET /download/:buildId (lines 128-143).  Looks up the artifact at
the joined path; if present, streams it with the fixed name app.apk and
then removes path.dirname(apkPath) in the res.download callback, whether
or not the stream completed cleanly (`streamOk` is deliberately unused
by the state update); otherwise responds 404 and changes nothing. -/
def downloadHandler (fs : FS) (bid : List String) (streamOk : Bool) : Resp × FS :=
  match readFile fs (resolvedApkPath bid) with
  | some c => (Resp.fileDownload c "app.apk", removeDir fs (resolvedApkPath bid).dropLast)
  | none => (Resp.notFoundJson "APK not found", fs)

/-- An uploaded file as the multer staging layer presents it: the
original client-supplied filename, the raw bytes, and, for the archive
case, the entry list that the external extract-zip collaborator reads
out of those bytes (relative path and content per entry). -/
structure StagedUpload where
  name : String
  bytes : List Char
  entries : List (List String × List Char)
deriving DecidableEq

/-- Index of the last dot in a filename, if any. -/
def lastDotIdx : List Char → Option Nat
  | [] => none
  | c :: rest =>
    match lastDotIdx rest with
    | some i => some (i + 1)
    | none => if c = '.' then some (0 : Nat) else none

/-- path.extname on a basename: the suffix from the last dot, except
that a dot at position 0 (a dotfile) yields the empty extension. -/
def extnameOf (s : List Char) : List Char :=
  match lastDotIdx s with
  | none => []
  | some 0 => []
  | some i => s.drop i

/-- The archive extension the handler tests for (line 82). -/
def zipExt : List Char := ".zip".toList

/-- Web-content target directory of a workspace (line 80). -/
def webTargetDir (bid : String) : List String := buildDirOf bid ++ webRel

/-- extract-zip modelled as writing every archive entry under the target
directory, preserving relative paths. -/
def extractZipInto (fs : FS) (dir : List String)
    (entries : List (List String × List Char)) : FS :=
  entries.foldl (fun a e => writeFile a (dir ++ e.1) e.2) fs

/-- Web-content injection (lines 78-87): a .zip upload is expanded into
the fixed target directory; any other upload is copied to index.html
inside it.  The staged file on disk holds exactly the upload bytes, so
the copy is modelled from the upload record. -/
def injectWebContent (fs : FS) (bid : String) (f : StagedUpload) : FS :=
  if extnameOf f.name.toList = zipExt then extractZipInto fs (webTargetDir bid) f.entries
  else writeFile fs (webTargetDir bid ++ ["index.html"]) f.bytes

/-- The parsed multipart body of a POST /generate-app request: the four
text fields as the handler reads them from req.body (absent = none) and
the two optional uploads from req.files. -/
structure GenRequest where
  appName : Option String
  packageName : Option String
  version : Option String
  url : Option String
  icon : Option StagedUpload
  htmlFile : Option StagedUpload
deriving DecidableEq

/-- JS falsiness of a text field: absent or the empty string. -/
def falsyField : Option String → Bool
  | none => true
  | some s => s == ""

/-- The validation test of line 41. -/
def missingRequired (req : GenRequest) : Bool :=
  falsyField req.appName || falsyField req.packageName ||
    falsyField req.version || falsyField req.url

/-- Path of a staged upload inside its fresh staging directory
(multer.diskStorage, lines 14-23): tempRoot/uuid/originalname. -/
def stagedPath (sid : String) (f : StagedUpload) : List String :=
  tempRoot ++ [sid, f.name]

/-- The multer middleware runs before the handler body: each uploaded
file is written into a fresh staging directory under the temp root.
`iconSid` and `htmlSid` are the uuids drawn for those directories. -/
def multerStage (fs : FS) (req : GenRequest) (iconSid htmlSid : String) : FS :=
  let fs1 := match req.icon with
    | some f => writeFile fs (stagedPath iconSid f) f.bytes
    | none => fs
  match req.htmlFile with
  | some f => writeFile fs1 (stagedPath htmlSid f) f.bytes
  | none => fs1

/-- fs.copy of the template tree (line 51): every template file appears
under the build directory. -/
def copyTemplate (fs : FS) (template : List (List String × List Char))
    (buildDir : List String) : FS :=
  template.foldl (fun a e => writeFile a (buildDir ++ e.1) e.2) fs

/-- Outcome of the synchronous part of the POST /generate-app handler:
either an early response was sent, or exec was started and the response
will come from the exec callback. -/
inductive GenOutcome where
  | responded (r : Resp)
  | buildStarted
deriving DecidableEq

/-- The POST /generate-app handler body up to the exec call
(lines 37-96), running on the state the multer middleware left behind.
A failed fs.readFile rejects and is caught by the try/catch, which
responds 500 Internal server error.  `template` is the fixed external
TemplateProject tree (relative paths and contents). -/
def generateAppBody (fs : FS) (req : GenRequest) (bid : String)
    (template : List (List String × List Char)) : GenOutcome × FS :=
  if missingRequired req then
    (GenOutcome.responded (Resp.badRequest "Missing required fields"), fs)
  else
    let buildDir := buildDirOf bid
    let fs1 := copyTemplate fs template buildDir
    match readFile fs1 (buildDir ++ manifestRel) with
    | none => (GenOutcome.responded (Resp.serverError "Internal server error"), fs1)
    | some manifest =>
      let fs2 := writeFile fs1 (buildDir ++ manifestRel)
        (substituteManifest manifest (req.packageName.getD "").toList
          (req.appName.getD "").toList (req.version.getD "").toList)
      match readFile fs2 (buildDir ++ gradleRel) with
      | none => (GenOutcome.responded (Resp.serverError "Internal server error"), fs2)
      | some gradle =>
        let fs3 := writeFile fs2 (buildDir ++ gradleRel)
          (substituteGradle gradle (req.packageName.getD "").toList
            (req.version.getD "").toList)
        let fs4 := match req.icon with
          | some f => writeFile fs3 (buildDir ++ iconRel) f.bytes
          | none => fs3
        let fs5 := match req.htmlFile with
          | some f => injectWebContent fs4 bid f
          | none => fs4
        match readFile fs5 (buildDir ++ mainActivityRel) with
        | none => (GenOutcome.responded (Resp.serverError "Internal server error"), fs5)
        | some act =>
          let fs6 := writeFile fs5 (buildDir ++ mainActivityRel)
            (substituteMainActivity act (req.url.getD "").toList)
          (GenOutcome.buildStarted, fs6)

/-- The exec callback (lines 97-120).  `buildError` is the error flag
gradle reported; `fs` is the filesystem state after the build;
`iconStaged` and `htmlStaged` are the staged paths of the uploads
(none when the field was not uploaded, making files.icon and
files.htmlFile undefined).  On the success branch the code evaluates
files.icon[0].path unconditionally, so a missing icon throws a
TypeError inside the async callback: no response is ever sent, modelled
by a `none` response with the state untouched (the throw happens before
any removal). -/
def execCallback (fs : FS) (buildError : Bool) (bid : String)
    (iconStaged htmlStaged : Option (List String)) : Option Resp × FS :=
  if buildError then (some (Resp.serverError "Failed to build APK"), fs)
  else if existsFile fs (apkPathOf bid) then
    match iconStaged with
    | none => (none, fs)
    | some ip =>
      let fs1 := removeDir fs ip.dropLast
      let fs2 := match htmlStaged with
        | some hp => removeDir fs1 hp.dropLast
        | none => fs1
      (some (Resp.okJson ("/download/" ++ bid)), fs2)
  else (some (Resp.serverError "APK generation failed"), fs)

/-- Concrete state for C1: a workspace whose build succeeded (the
artifact is present) while no icon was uploaded. -/
def c1DemoFs : FS := [(apkPathOf "b1", "APK".toList)]

/-- Concrete state for C3: a successfully built workspace b holding the
artifact and another project file. -/
def c3Fs : FS :=
  [(tempRoot ++ ["b"] ++ apkRel, "APK".toList),
   (tempRoot ++ ["b", "app", "build.gradle"], "G".toList)]

/-- Concrete state for C7: a workspace b with project files but no
artifact (the build failed). -/
def c7Fs : FS := [(tempRoot ++ ["b", "app", "build.gradle"], "G".toList)]

/-- Concrete state for C9: a file outside the temp root at the fixed
relative apk path under /srv/other. -/
def c9Fs : FS := [(["srv", "other"] ++ apkRel, "SECRET".toList)]

/-- Concrete state for C10: a staged icon upload and nothing else. -/
def c10Fs : FS := [(tempRoot ++ ["s1", "i.png"], "PNG".toList)]

/-- Concrete zip upload for C5 with entries at two depths. -/
def c5ZipUpload : StagedUpload :=
  { name := "site.zip", bytes := "ZIPBYTES".toList,
    entries := [(["index.html"], "<h1>hi</h1>".toList), (["js", "a.js"], "x=1".toList)] }

/-- Concrete plain html upload for C5. -/
def c5HtmlUpload : StagedUpload :=
  { name := "page.html", bytes := "<p>hi</p>".toList, entries := [] }

/-- Concrete request for C4: an icon upload but no appName field. -/
def c4Req : GenRequest :=
  { appName := none, packageName := some "com.example.x", version := some "1.0",
    url := some "https://e.com",
    icon := some { name := "icon.png", bytes := "PNG".toList, entries := [] },
    htmlFile := none }

end ApkGen

namespace ApkGen

theorem isPrefixOf_append_self {α : Type} [BEq α] [LawfulBEq α] (l t : List α) :
    l.isPrefixOf (l ++ t) = true := by
  induction l with
  | nil => simp
  | cons c cs ih => simp [ih]

theorem findMatchIdx_pos (s pat : List Char) (h : pat.isPrefixOf s = true) :
    findMatchIdx s pat = some 0 := by
  cases s with
  | nil => simp [findMatchIdx, h]
  | cons c t => simp [findMatchIdx, h]

theorem findMatchIdx_neg_cons (c : Char) (t pat : List Char)
    (h : pat.isPrefixOf (c :: t) = false) :
    findMatchIdx (c :: t) pat = (findMatchIdx t pat).map (fun i => i + 1) := by
  simp [findMatchIdx, h]

theorem findMatchIdx_split (s1 s2 pat : List Char)
    (h : ∀ j, j < s1.length → pat.isPrefixOf ((s1 ++ (pat ++ s2)).drop j) = false) :
    findMatchIdx (s1 ++ (pat ++ s2)) pat = some s1.length := by
  induction s1 with
  | nil =>
    simp only [List.nil_append]
    rw [findMatchIdx_pos _ _ (isPrefixOf_append_self pat s2)]
    rfl
  | cons c t ih =>
    have h0 : pat.isPrefixOf (c :: (t ++ (pat ++ s2))) = false := by
      simpa using h 0 (by simp)
    have iht : findMatchIdx (t ++ (pat ++ s2)) pat = some t.length := by
      refine ih fun j hj => ?_
      simpa using h (j + 1) (by simpa using Nat.succ_lt_succ hj)
    show findMatchIdx (c :: (t ++ (pat ++ s2))) pat = some (t.length + 1)
    rw [findMatchIdx_neg_cons _ _ _ h0, iht]
    rfl

theorem getSubstitution_no_dollar (m b a : List Char) :
    ∀ rep : List Char, '$' ∉ rep → getSubstitution m b a rep = rep
  | [], _ => rfl
  | [_], _ => rfl
  | c :: d :: t, h => by
    have hc : ¬ c = '$' := by
      intro hh
      exact h (by simp [hh])
    have hdt : '$' ∉ d :: t := by
      intro hh
      exact h (List.mem_cons_of_mem c hh)
    simp only [getSubstitution]
    rw [if_neg hc, getSubstitution_no_dollar m b a (d :: t) hdt]

/-- If the first occurrence of `pat` in `s1 ++ (pat ++ s2)` is the
explicit middle one (no occurrence starts inside `s1`), then `jsReplace`
rewrites exactly that occurrence, splicing in the GetSubstitution
expansion of the replacement and leaving `s1` and `s2` untouched. -/
theorem jsReplace_split (s1 s2 pat rep : List Char)
    (h : ∀ j, j < s1.length → pat.isPrefixOf ((s1 ++ (pat ++ s2)).drop j) = false) :
    jsReplace (s1 ++ (pat ++ s2)) pat rep
      = s1 ++ (getSubstitution pat s1 s2 rep ++ s2) := by
  have htake : (s1 ++ (pat ++ s2)).take s1.length = s1 := List.take_left s1 (pat ++ s2)
  have hdrop : (s1 ++ (pat ++ s2)).drop (s1.length + pat.length) = s2 := by
    rw [← List.drop_drop, List.drop_left, List.drop_left]
  unfold jsReplace
  rw [findMatchIdx_split s1 s2 pat h]
  show (s1 ++ (pat ++ s2)).take s1.length
      ++ (getSubstitution pat ((s1 ++ (pat ++ s2)).take s1.length)
            ((s1 ++ (pat ++ s2)).drop (s1.length + pat.length)) rep
          ++ (s1 ++ (pat ++ s2)).drop (s1.length + pat.length))
      = s1 ++ (getSubstitution pat s1 s2 rep ++ s2)
  rw [htake, hdrop]

/-- Claim C2: in every template file processed by the Parameter
Substitutor, each placeholder token is replaced literally (non-regex)
and only at its first occurrence in that file; later occurrences of the
same token remain untouched (the prefix and suffix around the first
occurrence survive verbatim, the spliced text being the GetSubstitution
expansion of the value, which is the value itself whenever it contains
no dollar).  `jsReplace` is the per-token replace operation the handler
applies, and the three substitution functions are exactly its
iterations from lines 56-59, 65-67 and 92. -/
theorem c2_substitution_first_occurrence_only (s1 s2 pat rep : List Char)
    (h : ∀ j, j < s1.length → pat.isPrefixOf ((s1 ++ (pat ++ s2)).drop j) = false) :
    jsReplace (s1 ++ (pat ++ s2)) pat rep
      = s1 ++ (getSubstitution pat s1 s2 rep ++ s2)
    ∧ (occursIn pat s2 → occursIn pat (jsReplace (s1 ++ (pat ++ s2)) pat rep))
    ∧ ('$' ∉ rep → jsReplace (s1 ++ (pat ++ s2)) pat rep = s1 ++ (rep ++ s2))
    ∧ (∀ m p a v, substituteManifest m p a v =
        jsReplace (jsReplace (jsReplace m pkgToken p) appNameToken a) versionToken v)
    ∧ (∀ g p v, substituteGradle g p v =
        jsReplace (jsReplace g pkgToken p) versionToken v)
    ∧ (∀ ms u, substituteMainActivity ms u = jsReplace ms urlToken u) := by
  refine ⟨jsReplace_split s1 s2 pat rep h, ?_, ?_, fun m p a v => rfl,
    fun g p v => rfl, fun ms u => rfl⟩
  · rintro ⟨u, v, rfl⟩
    rw [jsReplace_split _ _ _ _ h]
    exact ⟨s1 ++ (getSubstitution pat s1 (u ++ (pat ++ v)) rep ++ u), v,
      by simp [List.append_assoc]⟩
  · intro hd
    rw [jsReplace_split _ _ _ _ h, getSubstitution_no_dollar _ _ _ _ hd]

/-- Witness for C2: a concrete MainActivity-style content carrying the
URL token twice; only the first occurrence is rewritten (the dollar-free
value verbatim) and the second still occurs in the output. -/
theorem c2_witness :
    jsReplace ("u(".toList ++ (urlToken ++ ("); ".toList ++ (urlToken ++ ")".toList))))
        urlToken "https://e.com".toList
      = "u(".toList ++ ("https://e.com".toList ++ ("); ".toList ++ (urlToken ++ ")".toList)))
    ∧ occursIn urlToken
        (jsReplace ("u(".toList ++ (urlToken ++ ("); ".toList ++ (urlToken ++ ")".toList))))
          urlToken "https://e.com".toList) := by
  refine ⟨(c2_substitution_first_occurrence_only "u(".toList
      ("); ".toList ++ (urlToken ++ ")".toList)) urlToken "https://e.com".toList
      (by decide)).2.2.1 (by decide),
    (c2_substitution_first_occurrence_only "u(".toList
      ("); ".toList ++ (urlToken ++ ")".toList)) urlToken "https://e.com".toList
      (by decide)).2.1 ?_⟩
  exact ⟨"); ".toList, ")".toList, rfl⟩

/-- Counterexample to C8 as stated: the value url = two characters
dollar ampersand is a valid field value, yet the JS replace expands it
to the matched token itself, so the substituted MainActivity still
contains the URL placeholder, not the supplied value. -/
theorem c8_counterexample :
    substituteMainActivity ("x".toList ++ (urlToken ++ "y".toList)) "$&".toList
      = "x".toList ++ (urlToken ++ "y".toList) := by decide

/-- Claim C8 (amended): for a valid BuildRequest whose four field values
contain no dollar character (JS expands dollar escapes in replacement
values), the substituted configuration files carry the supplied
packageName, appName, version and url verbatim at the placeholder
locations, and no other content of the files is altered: every fragment
around the placeholders survives verbatim.  The remaining hypotheses say
that each file places each token once, at the written position (the
first-occurrence conditions of the three sequential replaces per
file). -/
theorem c8_substitution_frame
    (m0 m1 m2 m3 g0 g1 g2 a0 a1 pkg app ver url : List Char)
    (hpkg : '$' ∉ pkg) (happ : '$' ∉ app) (hver : '$' ∉ ver) (hurl : '$' ∉ url)
    (hm1 : ∀ j, j < m0.length → pkgToken.isPrefixOf
      ((m0 ++ (pkgToken ++ (m1 ++ (appNameToken ++ (m2 ++ (versionToken ++ m3)))))).drop j) = false)
    (hm2 : ∀ j, j < (m0 ++ (pkg ++ m1)).length → appNameToken.isPrefixOf
      (((m0 ++ (pkg ++ m1)) ++ (appNameToken ++ (m2 ++ (versionToken ++ m3)))).drop j) = false)
    (hm3 : ∀ j, j < ((m0 ++ (pkg ++ m1)) ++ (app ++ m2)).length → versionToken.isPrefixOf
      ((((m0 ++ (pkg ++ m1)) ++ (app ++ m2)) ++ (versionToken ++ m3)).drop j) = false)
    (hg1 : ∀ j, j < g0.length → pkgToken.isPrefixOf
      ((g0 ++ (pkgToken ++ (g1 ++ (versionToken ++ g2)))).drop j) = false)
    (hg2 : ∀ j, j < (g0 ++ (pkg ++ g1)).length → versionToken.isPrefixOf
      (((g0 ++ (pkg ++ g1)) ++ (versionToken ++ g2)).drop j) = false)
    (ha1 : ∀ j, j < a0.length → urlToken.isPrefixOf
      ((a0 ++ (urlToken ++ a1)).drop j) = false) :
    substituteManifest
        (m0 ++ (pkgToken ++ (m1 ++ (appNameToken ++ (m2 ++ (versionToken ++ m3))))))
        pkg app ver
      = m0 ++ (pkg ++ (m1 ++ (app ++ (m2 ++ (ver ++ m3)))))
    ∧ substituteGradle (g0 ++ (pkgToken ++ (g1 ++ (versionToken ++ g2)))) pkg ver
      = g0 ++ (pkg ++ (g1 ++ (ver ++ g2)))
    ∧ substituteMainActivity (a0 ++ (urlToken ++ a1)) url = a0 ++ (url ++ a1) := by
  refine ⟨?_, ?_, ?_⟩
  · unfold substituteManifest
    rw [jsReplace_split _ _ _ _ hm1, getSubstitution_no_dollar _ _ _ _ hpkg]
    have e1 : m0 ++ (pkg ++ (m1 ++ (appNameToken ++ (m2 ++ (versionToken ++ m3)))))
        = (m0 ++ (pkg ++ m1)) ++ (appNameToken ++ (m2 ++ (versionToken ++ m3))) := by
      simp [List.append_assoc]
    rw [e1, jsReplace_split _ _ _ _ hm2, getSubstitution_no_dollar _ _ _ _ happ]
    have e2 : (m0 ++ (pkg ++ m1)) ++ (app ++ (m2 ++ (versionToken ++ m3)))
        = ((m0 ++ (pkg ++ m1)) ++ (app ++ m2)) ++ (versionToken ++ m3) := by
      simp [List.append_assoc]
    rw [e2, jsReplace_split _ _ _ _ hm3, getSubstitution_no_dollar _ _ _ _ hver]
    simp [List.append_assoc]
  · unfold substituteGradle
    rw [jsReplace_split _ _ _ _ hg1, getSubstitution_no_dollar _ _ _ _ hpkg]
    have e1 : g0 ++ (pkg ++ (g1 ++ (versionToken ++ g2)))
        = (g0 ++ (pkg ++ g1)) ++ (versionToken ++ g2) := by
      simp [List.append_assoc]
    rw [e1, jsReplace_split _ _ _ _ hg2, getSubstitution_no_dollar _ _ _ _ hver]
    simp [List.append_assoc]
  · unfold substituteMainActivity
    rw [jsReplace_split _ _ _ _ ha1, getSubstitution_no_dollar _ _ _ _ hurl]

/-- Witness for C8 (amended) on concrete manifest, gradle and
MainActivity template contents with each token placed once and
dollar-free values. -/
theorem c8_witness :
    substituteManifest
        ("package=\"".toList ++ (pkgToken ++ ("\" name=\"".toList ++ (appNameToken ++
          ("\" v=\"".toList ++ (versionToken ++ "\"/>".toList))))))
        "com.x".toList "My App".toList "1.0".toList
      = "package=\"".toList ++ ("com.x".toList ++ ("\" name=\"".toList ++ ("My App".toList ++
          ("\" v=\"".toList ++ ("1.0".toList ++ "\"/>".toList)))))
    ∧ substituteGradle
        ("applicationId \"".toList ++ (pkgToken ++ ("\" versionName \"".toList ++
          (versionToken ++ "\"".toList))))
        "com.x".toList "1.0".toList
      = "applicationId \"".toList ++ ("com.x".toList ++ ("\" versionName \"".toList ++
          ("1.0".toList ++ "\"".toList)))
    ∧ substituteMainActivity
        ("loadUrl(\"".toList ++ (urlToken ++ "\");".toList)) "https://e.com".toList
      = "loadUrl(\"".toList ++ ("https://e.com".toList ++ "\");".toList) :=
  c8_substitution_frame
    "package=\"".toList "\" name=\"".toList "\" v=\"".toList "\"/>".toList
    "applicationId \"".toList "\" versionName \"".toList "\"".toList
    "loadUrl(\"".toList "\");".toList
    "com.x".toList "My App".toList "1.0".toList "https://e.com".toList
    (by decide) (by decide) (by decide) (by decide)
    (by decide) (by decide) (by decide) (by decide) (by decide) (by decide)

theorem readFile_removeDir_of_under (fs : FS) (d p : List String)
    (h : d.isPrefixOf p = true) : readFile (removeDir fs d) p = none := by
  induction fs with
  | nil => rfl
  | cons e rest ih =>
    obtain ⟨q, c⟩ := e
    show readFile (List.filter _ ((q, c) :: rest)) p = none
    rw [List.filter_cons]
    by_cases hk : d.isPrefixOf q = true
    · simp only [hk, Bool.not_true, reduceIte]
      exact ih
    · have hk2 : (!d.isPrefixOf q) = true := by
        revert hk; cases d.isPrefixOf q <;> simp
      have hne : q ≠ p := by
        intro hq
        rw [hq, h] at hk
        exact hk rfl
      simp only [hk2, reduceIte]
      show readFile ((q, c) :: List.filter _ rest) p = none
      rw [readFile, if_neg hne]
      exact ih

theorem foldl_normStep_plain (ys acc : List String)
    (h : ∀ s ∈ ys, s ≠ "." ∧ s ≠ "..") :
    List.foldl normStep acc ys = acc ++ ys := by
  induction ys generalizing acc with
  | nil => simp
  | cons y t ih =>
    have hy := h y (by simp)
    have ht : ∀ s ∈ t, s ≠ "." ∧ s ≠ ".." := fun s hs => h s (by simp [hs])
    rw [List.foldl_cons,
      show normStep acc y = acc ++ [y] from by simp [normStep, hy.1, hy.2],
      ih _ ht]
    simp

theorem resolvedApkPath_eq (bid : List String) :
    resolvedApkPath bid = pathNorm (tempRoot ++ bid) ++ apkRel := by
  unfold resolvedApkPath pathNorm
  rw [List.foldl_append]
  exact foldl_normStep_plain apkRel _ (by decide)

theorem resolvedApkPath_dropLast (bid : List String) :
    (resolvedApkPath bid).dropLast
      = pathNorm (tempRoot ++ bid) ++ ["app", "build", "outputs", "apk", "debug"] := by
  rw [resolvedApkPath_eq,
    show apkRel = ["app", "build", "outputs", "apk", "debug"] ++ ["app-debug.apk"] from rfl,
    ← List.append_assoc, List.dropLast_concat]

theorem dropLast_isPrefixOf_resolved (bid : List String) :
    ((resolvedApkPath bid).dropLast).isPrefixOf (resolvedApkPath bid) = true := by
  rw [resolvedApkPath_dropLast, resolvedApkPath_eq,
    show apkRel = ["app", "build", "outputs", "apk", "debug"] ++ ["app-debug.apk"] from rfl,
    ← List.append_assoc]
  exact isPrefixOf_append_self _ _

/-- Counterexample to C3 as stated: on the concrete built workspace
`c3Fs`, the first download serves the artifact, yet the workspace
directory temp/b still exists afterwards (only the artifact's parent
directory app/build/outputs/apk/debug was removed, not the entire
Workspace). -/
theorem c3_counterexample :
    (downloadHandler c3Fs ["b"] true).1 = Resp.fileDownload "APK".toList "app.apk"
    ∧ dirExists (downloadHandler c3Fs ["b"] true).2 (tempRoot ++ ["b"]) = true :=
  ⟨rfl, rfl⟩

/-- Claim C3 (amended): a built artifact is downloadable exactly once:
the first GET serves its bytes and removes path.dirname of the artifact
path (not the entire workspace), irrespective of whether the stream
completed cleanly, after which the artifact path is gone and a second
GET to the same path returns 404. -/
theorem c3_one_shot_download (fs : FS) (bid : List String) (c : List Char)
    (ok1 ok2 : Bool) (h : readFile fs (resolvedApkPath bid) = some c) :
    downloadHandler fs bid ok1
      = (Resp.fileDownload c "app.apk", removeDir fs (resolvedApkPath bid).dropLast)
    ∧ readFile (removeDir fs (resolvedApkPath bid).dropLast) (resolvedApkPath bid) = none
    ∧ downloadHandler (removeDir fs (resolvedApkPath bid).dropLast) bid ok2
      = (Resp.notFoundJson "APK not found", removeDir fs (resolvedApkPath bid).dropLast)
    ∧ (downloadHandler fs bid true).2 = (downloadHandler fs bid false).2 := by
  have h2 : readFile (removeDir fs (resolvedApkPath bid).dropLast) (resolvedApkPath bid)
      = none :=
    readFile_removeDir_of_under _ _ _ (dropLast_isPrefixOf_resolved bid)
  refine ⟨?_, h2, ?_, rfl⟩
  · unfold downloadHandler
    rw [h]
  · unfold downloadHandler
    rw [h2]

/-- Witness for C3 (amended) on the concrete workspace `c3Fs`. -/
theorem c3_witness :
    readFile c3Fs (resolvedApkPath ["b"]) = some "APK".toList
    ∧ downloadHandler c3Fs ["b"] true
      = (Resp.fileDownload "APK".toList "app.apk",
         removeDir c3Fs (resolvedApkPath ["b"]).dropLast)
    ∧ downloadHandler (removeDir c3Fs (resolvedApkPath ["b"]).dropLast) ["b"] false
      = (Resp.notFoundJson "APK not found",
         removeDir c3Fs (resolvedApkPath ["b"]).dropLast) :=
  ⟨rfl, (c3_one_shot_download c3Fs ["b"] "APK".toList true false rfl).1,
    (c3_one_shot_download c3Fs ["b"] "APK".toList true false rfl).2.2.1⟩

/-- Claim C9: the download route serves whatever file exists at the
literal normalized join of the temp root, the request-supplied buildId
and the fixed relative apk path, with no validation of the buildId; for
the buildId ../../other the resolved path lies outside the temp root,
and an existing file there is served. -/
theorem c9_download_no_validation :
    (∀ (fs : FS) (bid : List String) (c : List Char) (ok : Bool),
      readFile fs (resolvedApkPath bid) = some c →
      downloadHandler fs bid ok
        = (Resp.fileDownload c "app.apk", removeDir fs (resolvedApkPath bid).dropLast))
    ∧ tempRoot.isPrefixOf (resolvedApkPath ["..", "..", "other"]) = false
    ∧ resolvedApkPath ["..", "..", "other"] = ["srv", "other"] ++ apkRel := by
  refine ⟨fun fs bid c ok h => ?_, by decide, by decide⟩
  unfold downloadHandler
  rw [h]

/-- Witness for C9: the file /srv/other/app/build/outputs/apk/debug/
app-debug.apk, outside the temp root, is served for the traversal
buildId ../../other. -/
theorem c9_witness :
    downloadHandler c9Fs ["..", "..", "other"] true
      = (Resp.fileDownload "SECRET".toList "app.apk",
         removeDir c9Fs (resolvedApkPath ["..", "..", "other"]).dropLast) :=
  c9_download_no_validation.1 c9Fs ["..", "..", "other"] "SECRET".toList true rfl

/-- Claim C1 (code_bug): with all four required fields present, the
build tool exiting zero and the artifact present, but no icon uploaded,
the success branch of the exec callback evaluates files.icon[0].path
unconditionally (line 107) and throws a TypeError, so no response at
all is produced instead of the claimed 200 success JSON; the state is
untouched because the throw precedes every removal. -/
theorem c1_no_icon_crash :
    execCallback c1DemoFs false "b1" none none = (none, c1DemoFs) := rfl

/-- Claim C6: when gradle exits zero but the artifact is absent at the
fixed path, the handler responds with the distinct 500 failure
APK generation failed, different from the build-error failure and from
any success response. -/
theorem c6_missing_artifact_distinct_failure (fs : FS) (bid : String)
    (icon html : Option (List String)) (h : existsFile fs (apkPathOf bid) = false) :
    execCallback fs false bid icon html
      = (some (Resp.serverError "APK generation failed"), fs)
    ∧ Resp.serverError "APK generation failed" ≠ Resp.serverError "Failed to build APK"
    ∧ (∀ u, Resp.serverError "APK generation failed" ≠ Resp.okJson u) := by
  refine ⟨by simp [execCallback, h], by decide, fun u => by simp⟩

/-- Witness for C6 on the empty filesystem (no artifact anywhere). -/
theorem c6_witness :
    execCallback [] false "b" none none
      = (some (Resp.serverError "APK generation failed"), ([] : FS)) :=
  (c6_missing_artifact_distinct_failure [] "b" none none rfl).1

/-- Claim C7: on a nonzero gradle exit the handler responds 500 Failed
to build APK, which carries no downloadUrl, the filesystem (hence the
workspace) is left untouched, and while the artifact path is absent the
download route answers 404 without changing anything. -/
theorem c7_build_failure_workspace_kept (fs : FS) (bid : String)
    (icon html : Option (List String)) (ok : Bool)
    (h : readFile fs (resolvedApkPath [bid]) = none) :
    execCallback fs true bid icon html
      = (some (Resp.serverError "Failed to build APK"), fs)
    ∧ (∀ u, Resp.serverError "Failed to build APK" ≠ Resp.okJson u)
    ∧ downloadHandler fs [bid] ok = (Resp.notFoundJson "APK not found", fs) := by
  refine ⟨by simp [execCallback], fun u => by simp, ?_⟩
  unfold downloadHandler
  rw [h]

/-- Witness for C7 on a failed-build workspace with project files but
no artifact. -/
theorem c7_witness :
    execCallback c7Fs true "b" none none
      = (some (Resp.serverError "Failed to build APK"), c7Fs)
    ∧ downloadHandler c7Fs ["b"] true = (Resp.notFoundJson "APK not found", c7Fs) :=
  ⟨(c7_build_failure_workspace_kept c7Fs "b" none none true rfl).1,
    (c7_build_failure_workspace_kept c7Fs "b" none none true rfl).2.2⟩

/-- Claim C10: the staged-upload directories are removed only on the
branch where gradle exited zero and the artifact exists: on a build
error, on a missing artifact, and on the thrown-TypeError branch (no
icon entry) the filesystem is left untouched, so the staging
directories survive. -/
theorem c10_staging_kept_unless_success (fs : FS) (bid : String)
    (icon html : Option (List String)) :
    (execCallback fs true bid icon html).2 = fs
    ∧ (existsFile fs (apkPathOf bid) = false → (execCallback fs false bid icon html).2 = fs)
    ∧ (execCallback fs false bid none html).2 = fs := by
  refine ⟨by simp [execCallback], fun h => by simp [execCallback, h], ?_⟩
  unfold execCallback
  cases hex : existsFile fs (apkPathOf bid) <;> simp [hex]

/-- Witness for C10 on a state holding one staged icon file. -/
theorem c10_witness :
    (execCallback c10Fs true "b" (some (tempRoot ++ ["s1", "i.png"])) none).2 = c10Fs
    ∧ (execCallback c10Fs false "b" (some (tempRoot ++ ["s1", "i.png"])) none).2 = c10Fs
    ∧ (execCallback c10Fs false "b" none none).2 = c10Fs :=
  ⟨(c10_staging_kept_unless_success c10Fs "b" (some (tempRoot ++ ["s1", "i.png"])) none).1,
    (c10_staging_kept_unless_success c10Fs "b" (some (tempRoot ++ ["s1", "i.png"])) none).2.1 rfl,
    (c10_staging_kept_unless_success c10Fs "b" (some (tempRoot ++ ["s1", "i.png"])) none).2.2⟩

theorem extractZip_read_other (dir : List String)
    (entries : List (List String × List Char)) (fs : FS) (q : List String)
    (h : ∀ r ∈ entries, dir ++ r.1 ≠ q) :
    readFile (extractZipInto fs dir entries) q = readFile fs q := by
  induction entries generalizing fs with
  | nil => rfl
  | cons e rest ih =>
    show readFile (extractZipInto (writeFile fs (dir ++ e.1) e.2) dir rest) q = _
    rw [ih _ fun r hr => h r (by simp [hr])]
    show readFile ((dir ++ e.1, e.2) :: fs) q = readFile fs q
    rw [readFile, if_neg (h e (by simp))]

theorem extractZip_read_entry (dir : List String)
    (entries : List (List String × List Char)) (fs : FS)
    (pc : List String × List Char) (hmem : pc ∈ entries)
    (hnd : (entries.map Prod.fst).Nodup) :
    readFile (extractZipInto fs dir entries) (dir ++ pc.1) = some pc.2 := by
  induction entries generalizing fs with
  | nil => cases hmem
  | cons e rest ih =>
    rw [List.map_cons] at hnd
    have hcons := List.nodup_cons.mp hnd
    rcases List.mem_cons.mp hmem with he | hr
    · subst he
      show readFile (extractZipInto (writeFile fs (dir ++ pc.1) pc.2) dir rest)
        (dir ++ pc.1) = some pc.2
      rw [extractZip_read_other dir rest _ _ ?hne]
      · show readFile ((dir ++ pc.1, pc.2) :: fs) (dir ++ pc.1) = some pc.2
        rw [readFile, if_pos rfl]
      · intro r hrr heq
        exact hcons.1 (List.append_cancel_left heq ▸ List.mem_map_of_mem Prod.fst hrr)
    · exact ih _ hr hcons.2

/-- Claim C5: an uploaded web asset whose extension is the archive
extension .zip is expanded into the fixed target directory with every
entry at its relative path, at arbitrary depth; any other upload is
copied to index.html inside that directory. -/
theorem c5_web_injection (fs : FS) (bid : String) (f : StagedUpload) :
    (extnameOf f.name.toList = zipExt →
      (f.entries.map Prod.fst).Nodup →
      ∀ pc, pc ∈ f.entries →
        readFile (injectWebContent fs bid f) (webTargetDir bid ++ pc.1) = some pc.2)
    ∧ (extnameOf f.name.toList ≠ zipExt →
      injectWebContent fs bid f
        = writeFile fs (webTargetDir bid ++ ["index.html"]) f.bytes) := by
  constructor
  · intro hz hnd pc hm
    unfold injectWebContent
    rw [if_pos hz]
    exact extractZip_read_entry _ _ _ _ hm hnd
  · intro hz
    unfold injectWebContent
    rw [if_neg hz]

/-- Witness for C5: the zip upload lands its nested entry at its
relative path under the web directory, and the plain html upload
becomes index.html there. -/
theorem c5_witness :
    readFile (injectWebContent [] "b" c5ZipUpload) (webTargetDir "b" ++ ["js", "a.js"])
      = some "x=1".toList
    ∧ injectWebContent [] "b" c5HtmlUpload
      = writeFile [] (webTargetDir "b" ++ ["index.html"]) "<p>hi</p>".toList :=
  ⟨(c5_web_injection [] "b" c5ZipUpload).1 (by decide) (by decide)
      (["js", "a.js"], "x=1".toList) (by decide),
    (c5_web_injection [] "b" c5HtmlUpload).2 (by decide)⟩

theorem dirExists_writeFile (fs : FS) (p : List String) (c : List Char)
    (d : List String) :
    dirExists (writeFile fs p c) d = (d.isPrefixOf p || dirExists fs d) := rfl

theorem buildDir_not_under_staged (bid sid : String) (f : StagedUpload) :
    (buildDirOf bid).isPrefixOf (stagedPath sid f) = (bid == sid) := by
  simp [buildDirOf, stagedPath, tempRoot, List.isPrefixOf_cons₂]

/-- Counterexample to C4 as stated: the request `c4Req` misses appName
but uploads an icon; the response is the 400 error, yet a directory
(the multer staging directory temp/s1) does appear under the temp root
during the processing of that request. -/
theorem c4_counterexample :
    (generateAppBody (multerStage [] c4Req "s1" "s2") c4Req "b" []).1
      = GenOutcome.responded (Resp.badRequest "Missing required fields")
    ∧ dirExists (generateAppBody (multerStage [] c4Req "s1" "s2") c4Req "b" []).2
        (tempRoot ++ ["s1"]) = true :=
  ⟨rfl, rfl⟩

/-- Claim C4 (amended): a request missing one of the four required text
fields gets the 400 JSON error, the handler changes nothing beyond what
the upload middleware already staged, and no Workspace (build
directory) is created under the temp root; staging directories for any
uploaded files, created by multer before validation, do appear there. -/
theorem c4_validation_no_workspace (fs : FS) (req : GenRequest)
    (bid iconSid htmlSid : String) (template : List (List String × List Char))
    (hmiss : req.appName = none ∨ req.packageName = none
      ∨ req.version = none ∨ req.url = none)
    (hfresh : dirExists fs (buildDirOf bid) = false)
    (hbi : bid ≠ iconSid) (hbh : bid ≠ htmlSid) :
    generateAppBody (multerStage fs req iconSid htmlSid) req bid template
      = (GenOutcome.responded (Resp.badRequest "Missing required fields"),
         multerStage fs req iconSid htmlSid)
    ∧ dirExists (multerStage fs req iconSid htmlSid) (buildDirOf bid) = false := by
  have hmr : missingRequired req = true := by
    rcases hmiss with h | h | h | h <;> simp [missingRequired, falsyField, h]
  have hb1 : (bid == iconSid) = false := beq_eq_false_iff_ne.mpr hbi
  have hb2 : (bid == htmlSid) = false := beq_eq_false_iff_ne.mpr hbh
  constructor
  · unfold generateAppBody
    rw [if_pos hmr]
  · unfold multerStage
    cases req.icon <;> cases req.htmlFile <;>
      simp [dirExists_writeFile, buildDir_not_under_staged, hfresh, hb1, hb2]

/-- Witness for C4 (amended) on the concrete request `c4Req`. -/
theorem c4_witness :
    generateAppBody (multerStage [] c4Req "s1" "s2") c4Req "b" []
      = (GenOutcome.responded (Resp.badRequest "Missing required fields"),
         multerStage [] c4Req "s1" "s2")
    ∧ dirExists (multerStage [] c4Req "s1" "s2") (buildDirOf "b") = false :=
  c4_validation_no_workspace [] c4Req "b" "s1" "s2" [] (Or.inl rfl) rfl
    (by decide) (by decide)

end ApkGen
